import Mathlib

/-!
Shallow embedding of the ip-intel agent (src/index.ts).

The program is an API-composition layer: a syntactic IP validator
(two anchored JavaScript regexes), an upstream client `fetchIPData`
over the ip-api.com JSON schema, per-endpoint response shapers, and a
bulk fan-out handler built on `Promise.all` over `ips.map`.

Modelling conventions:
  - JavaScript regexes are embedded with an all-match-paths matcher
    (a piece of regex is a function from the input suffix to the list
    of suffixes it can leave behind); `test` of an anchored regex is
    then "some path consumes the whole string".  All repetitions in
    the two source regexes are bounded, so no Kleene star is needed.
  - The upstream HTTP call is abstracted as an oracle
    `Upstream := String → Except String ProviderRecord` giving, per IP,
    what one `fetchIPData` invocation would return (`Except.error` for
    a thrown error, with the thrown message).  `fetchIPData` itself is
    modelled separately as a pure function of the decoded transport
    response, and `upstreamOf` ties the two together.
  - JSON numbers (lat/lon) are only copied, never computed with; they
    are modelled as `Int`.  Optional JSON attributes are `Option`.
  - `new Date()` timestamps and `toLocaleString` are passed in as
    parameters (`now`, `loc`): the handlers are pure in everything
    else.
-/

namespace IpIntel

/-! ## Regex matcher

A matcher takes the remaining input and returns every suffix that a
match of this regex piece can leave behind.  An anchored regex accepts
the string iff the empty suffix is reachable.  This is the standard
full-backtracking semantics of JavaScript `RegExp.test` for the
constructs used here (literals, character classes, concatenation,
alternation, bounded greedy repetition): `test` only asks for the
existence of a match, so the set of reachable suffixes is all that
matters. -/

def Matcher : Type := List Char → List (List Char)

def reChar (p : Char → Bool) : Matcher :=
  fun s =>
    match s with
    | [] => []
    | c :: cs => if p c then [cs] else []

def reCat (a b : Matcher) : Matcher :=
  fun s => (a s).flatMap b

def reAlt (a b : Matcher) : Matcher :=
  fun s => a s ++ b s

/-- Exactly `n` repetitions. -/
def rePow (a : Matcher) : Nat → Matcher
  | 0 => fun s => [s]
  | n + 1 => reCat a (rePow a n)

/-- Between `lo` and `hi` repetitions (the regex quantifier `{lo,hi}`). -/
def reRep (a : Matcher) (lo hi : Nat) : Matcher :=
  fun s => (List.range (hi + 1)).flatMap (fun k => if lo ≤ k then rePow a k s else [])

/-- Anchored acceptance: some match path consumes the whole input. -/
def reFull (a : Matcher) (s : List Char) : Bool :=
  (a s).any (fun r => r.isEmpty)

def lit (c : Char) : Matcher := reChar (fun d => d = c)

/-- Character class `[0-9]`. -/
def digitC : Matcher := reChar (fun c => 48 ≤ c.toNat && c.toNat ≤ 57)

/-- Character class `[0-9a-fA-F]`. -/
def hexC : Matcher :=
  reChar (fun c =>
    (48 ≤ c.toNat && c.toNat ≤ 57) ||
    (97 ≤ c.toNat && c.toNat ≤ 102) ||
    (65 ≤ c.toNat && c.toNat ≤ 70))

/-! ## isValidIP (src/index.ts:30-34) -/

/-- One IPv4 octet: `25[0-5]|2[0-4][0-9]|[01]?[0-9][0-9]?`. -/
def octet : Matcher :=
  reAlt
    (reCat (lit '2') (reCat (lit '5') (reChar (fun c => 48 ≤ c.toNat && c.toNat ≤ 53))))
    (reAlt
      (reCat (lit '2') (reCat (reChar (fun c => 48 ≤ c.toNat && c.toNat ≤ 52)) digitC))
      (reCat (reRep (reChar (fun c => c = '0' || c = '1')) 0 1)
        (reCat digitC (reRep digitC 0 1))))

/-- `^(?:(?:25[0-5]|2[0-4][0-9]|[01]?[0-9][0-9]?)\.){3}(?:25[0-5]|2[0-4][0-9]|[01]?[0-9][0-9]?)$` -/
def ipv4Regex (s : List Char) : Bool :=
  reFull (reCat (rePow (reCat octet (lit '.')) 3) octet) s

/-- A hex group `[0-9a-fA-F]{1,4}`. -/
def hexGroup : Matcher := reRep hexC 1 4

/-- A hex group followed by a colon: `(?:[0-9a-fA-F]{1,4}:)`. -/
def hexColon : Matcher := reCat hexGroup (lit ':')

/-- First IPv6 alternative: `^(?:[0-9a-fA-F]{1,4}:){7}[0-9a-fA-F]{1,4}$`. -/
def ipv6Alt1 (s : List Char) : Bool :=
  reFull (reCat (rePow hexColon 7) hexGroup) s

/-- Second IPv6 alternative: `^::(?:[0-9a-fA-F]{1,4}:){0,6}[0-9a-fA-F]{1,4}$`. -/
def ipv6Alt2 (s : List Char) : Bool :=
  reFull (reCat (lit ':') (reCat (lit ':') (reCat (reRep hexColon 0 6) hexGroup))) s

/-- Third IPv6 alternative: `^(?:[0-9a-fA-F]{1,4}:){1,7}:$`. -/
def ipv6Alt3 (s : List Char) : Bool :=
  reFull (reCat (reRep hexColon 1 7) (lit ':')) s

/-- Fourth IPv6 alternative:
`^(?:[0-9a-fA-F]{1,4}:){0,6}::(?:[0-9a-fA-F]{1,4}:){0,5}[0-9a-fA-F]{1,4}$`. -/
def ipv6Alt4 (s : List Char) : Bool :=
  reFull (reCat (reRep hexColon 0 6)
    (reCat (lit ':') (reCat (lit ':') (reCat (reRep hexColon 0 5) hexGroup)))) s

def ipv6Regex (s : List Char) : Bool :=
  ipv6Alt1 s || ipv6Alt2 s || ipv6Alt3 s || ipv6Alt4 s

/-- `isValidIP` (src/index.ts:30-34): `ipv4Regex.test(ip) || ipv6Regex.test(ip)`. -/
def isValidIP (ip : String) : Bool :=
  ipv4Regex ip.data || ipv6Regex ip.data

/-! ## Data model: the decoded ip-api.com JSON payload

Attributes other than `status` are optional: which ones are present
depends on the `fields` query parameter and on the provider.  The JSON
field `as` is modelled as `asNum` (`as` would shadow Lean syntax);
`lat`/`lon` are JSON numbers that the program only copies, modelled as
`Int`. -/

structure ProviderRecord where
  status : String
  message : Option String
  country : Option String
  countryCode : Option String
  region : Option String
  regionName : Option String
  city : Option String
  zip : Option String
  lat : Option Int
  lon : Option Int
  timezone : Option String
  isp : Option String
  org : Option String
  asNum : Option String
  asname : Option String
  mobile : Option Bool
  proxy : Option Bool
  hosting : Option Bool
  query : Option String
deriving DecidableEq

/-- The transport-level result of the HTTP GET, with the decoded JSON
body.  (`fetch` rejections and JSON decode failures are outside this
model; the spec routes them under "unexpected upstream error".) -/
structure HttpResponse where
  status : Nat
  data : ProviderRecord
deriving DecidableEq

/-- `Response.ok` of the fetch API: status in the inclusive range 200-299. -/
def respOk (r : HttpResponse) : Bool :=
  200 ≤ r.status && r.status ≤ 299

/-- JavaScript `x || d` on an optional string: the empty string is falsy. -/
def jsOrString (x : Option String) (d : String) : String :=
  match x with
  | some s => if s = "" then d else s
  | none => d

/-- JavaScript `x || false` on an optional boolean. -/
def jsOrFalse (x : Option Bool) : Bool :=
  match x with
  | some b => b
  | none => false

/-- Stringification used in template literals, for modelled numbers. -/
def jsNumStr (x : Option Int) : String :=
  match x with
  | some n => toString n
  | none => "undefined"

/-! ## fetchIPData (src/index.ts:19-27)

`fetchIPData(ip, fields?)` builds the URL (the `fields` parameter only
restricts which optional attributes the provider includes), performs
the GET, throws `API error: <status>` when `!response.ok`, throws
`data.message || 'Invalid IP address'` when `data.status === 'fail'`,
and otherwise returns the decoded record.  Here it is a pure function
of the transport response; `Except.error` models a thrown error
carrying the message. -/

def fetchIPData (resp : HttpResponse) : Except String ProviderRecord :=
  if respOk resp = false then
    Except.error ("API error: " ++ toString resp.status)
  else if resp.data.status = "fail" then
    Except.error (jsOrString resp.data.message "Invalid IP address")
  else
    Except.ok resp.data

/-- An upstream oracle: what one `fetchIPData ip` invocation yields for
each IP (thrown message or decoded record). -/
def Upstream : Type := String → Except String ProviderRecord

/-- An upstream oracle induced by a transport layer, tying the handler
models to `fetchIPData`. -/
def upstreamOf (transport : String → HttpResponse) : Upstream :=
  fun ip => fetchIPData (transport ip)

/-! ## Bulk handler (src/index.ts:102-138)

`Promise.all(ctx.input.ips.map(async ip => ...))` resolves to the list
of per-entry outcomes in input order, whatever the completion order of
the individual promises, so the fan-out/fan-in is embedded as `map`. -/

structure Coordinates where
  lat : Option Int
  lon : Option Int
deriving DecidableEq

/-- The success payload of one bulk entry (src/index.ts:117-124). -/
structure BulkSuccess where
  ip : Option String
  country : Option String
  countryCode : Option String
  city : Option String
  isp : Option String
  coordinates : Coordinates
deriving DecidableEq

inductive LookupOutcome where
  | err (ip : String) (error : String)
  | ok (payload : BulkSuccess)
deriving DecidableEq

/-- The body of the `ips.map` lambda (src/index.ts:111-128). -/
def bulkOutcome (u : Upstream) (ip : String) : LookupOutcome :=
  if isValidIP ip = false then
    LookupOutcome.err ip "Invalid IP format"
  else
    match u ip with
    | Except.error m => LookupOutcome.err ip m
    | Except.ok d =>
        LookupOutcome.ok
          { ip := d.query, country := d.country, countryCode := d.countryCode,
            city := d.city, isp := d.isp,
            coordinates := { lat := d.lat, lon := d.lon } }

/-- The `results` list of the bulk handler (src/index.ts:110-129). -/
def bulkHandler (u : Upstream) (ips : List String) : List LookupOutcome :=
  ips.map (bulkOutcome u)

/-! ## Single-IP handlers (src/index.ts:70-236)

Each takes the upstream oracle and the `fetchedAt` timestamp `now`;
`Except.error` models the handler throwing (the whole request fails,
no partial output). -/

structure LookupOutput where
  ip : Option String
  country : Option String
  countryCode : Option String
  region : Option String
  city : Option String
  zip : Option String
  coordinates : Coordinates
  timezone : Option String
  isp : Option String
  organization : Option String
  asn : Option String
  fetchedAt : String
deriving DecidableEq

/-- `lookup` handler (src/index.ts:77-98); note `region := data.regionName`. -/
def lookupHandler (u : Upstream) (now : String) (ip : String) :
    Except String LookupOutput :=
  if isValidIP ip = false then
    Except.error "Invalid IP address format"
  else
    match u ip with
    | Except.error e => Except.error e
    | Except.ok d =>
        Except.ok
          { ip := d.query, country := d.country, countryCode := d.countryCode,
            region := d.regionName, city := d.city, zip := d.zip,
            coordinates := { lat := d.lat, lon := d.lon },
            timezone := d.timezone, isp := d.isp, organization := d.org,
            asn := d.asNum, fetchedAt := now }

structure GeoLocation where
  country : Option String
  countryCode : Option String
  region : Option String
  regionName : Option String
  city : Option String
  postalCode : Option String
deriving DecidableEq

structure GeoCoordinates where
  latitude : Option Int
  longitude : Option Int
  mapsUrl : String
deriving DecidableEq

structure GeolocateOutput where
  ip : Option String
  location : GeoLocation
  coordinates : GeoCoordinates
  timezone : Option String
  fetchedAt : String
deriving DecidableEq

/-- `geolocate` handler (src/index.ts:148-172). -/
def geolocateHandler (u : Upstream) (now : String) (ip : String) :
    Except String GeolocateOutput :=
  if isValidIP ip = false then
    Except.error "Invalid IP address format"
  else
    match u ip with
    | Except.error e => Except.error e
    | Except.ok d =>
        Except.ok
          { ip := d.query,
            location :=
              { country := d.country, countryCode := d.countryCode,
                region := d.region, regionName := d.regionName,
                city := d.city, postalCode := d.zip },
            coordinates :=
              { latitude := d.lat, longitude := d.lon,
                mapsUrl := "https://www.google.com/maps?q=" ++ jsNumStr d.lat
                  ++ "," ++ jsNumStr d.lon },
            timezone := d.timezone, fetchedAt := now }

structure TimezoneOutput where
  ip : Option String
  timezone : Option String
  country : Option String
  city : Option String
  currentLocalTime : String
  fetchedAt : String
deriving DecidableEq

/-- `timezone` handler (src/index.ts:184-204).  `loc` stands for
`now.toLocaleString('en-US', { timeZone: data.timezone })`, a function
of the (possibly absent) timezone name; note `country := data.countryCode`. -/
def timezoneHandler (u : Upstream) (loc : Option String → String)
    (now : String) (ip : String) : Except String TimezoneOutput :=
  if isValidIP ip = false then
    Except.error "Invalid IP address format"
  else
    match u ip with
    | Except.error e => Except.error e
    | Except.ok d =>
        Except.ok
          { ip := d.query, timezone := d.timezone, country := d.countryCode,
            city := d.city, currentLocalTime := loc d.timezone,
            fetchedAt := now }

structure IspFlags where
  mobile : Bool
  proxy : Bool
  hosting : Bool
deriving DecidableEq

structure IspInfoOutput where
  ip : Option String
  isp : Option String
  organization : Option String
  asn : Option String
  asName : Option String
  flags : IspFlags
  fetchedAt : String
deriving DecidableEq

/-- `isp-info` handler (src/index.ts:215-235); each flag is
`data.<flag> || false`. -/
def ispInfoHandler (u : Upstream) (now : String) (ip : String) :
    Except String IspInfoOutput :=
  if isValidIP ip = false then
    Except.error "Invalid IP address format"
  else
    match u ip with
    | Except.error e => Except.error e
    | Except.ok d =>
        Except.ok
          { ip := d.query, isp := d.isp, organization := d.org,
            asn := d.asNum, asName := d.asname,
            flags :=
              { mobile := jsOrFalse d.mobile, proxy := jsOrFalse d.proxy,
                hosting := jsOrFalse d.hosting },
            fetchedAt := now }

/-! ## Overview handler (src/index.ts:37-67) -/

structure SampleLookup where
  ip : Option String
  country : Option String
  city : Option String
  isp : Option String
deriving DecidableEq

structure OverviewOutput where
  service : String
  description : String
  dataSource : String
  sampleLookup : SampleLookup
  endpoints : List (String × String)
  fetchedAt : String
deriving DecidableEq

/-- The endpoints catalog literal of the overview output (src/index.ts:56-62). -/
def overviewEndpoints : List (String × String) :=
  [("lookup", "Single IP lookup - $0.001"),
   ("bulk", "Bulk IP lookup (up to 10) - $0.003"),
   ("geolocate", "Detailed geolocation - $0.002"),
   ("timezone", "Timezone info - $0.001"),
   ("isp-info", "ISP/Organization details - $0.002")]

/-- `overview` handler (src/index.ts:42-66): one unguarded
`fetchIPData('8.8.8.8')` then the shaped output. -/
def overviewHandler (u : Upstream) (now : String) :
    Except String OverviewOutput :=
  match u "8.8.8.8" with
  | Except.error e => Except.error e
  | Except.ok d =>
      Except.ok
        { service := "IP Intelligence Agent",
          description := "Real-time IP geolocation, ISP info, and timezone data",
          dataSource := "ip-api.com (live)",
          sampleLookup := { ip := d.query, country := d.country,
                            city := d.city, isp := d.isp },
          endpoints := overviewEndpoints,
          fetchedAt := now }

/-- The `price.amount` of each registered entrypoint, in registration
order (src/index.ts:41, 76, 108, 147, 183, 214). -/
def entrypointPrices : List (String × Nat) :=
  [("overview", 0), ("lookup", 1000), ("bulk", 3000),
   ("geolocate", 2000), ("timezone", 1000), ("isp-info", 2000)]

def priceOf (k : String) : Option Nat :=
  (entrypointPrices.find? (fun p => p.fst = k)).map Prod.snd

/-! ## Concrete fixtures used by witnesses -/

/-- A typical successful provider record for 8.8.8.8 (`mobile` absent,
`proxy`/`hosting` present, as the default field list omits the flags). -/
def sampleRecord : ProviderRecord :=
  { status := "success", message := none, country := some "United States",
    countryCode := some "US", region := some "VA",
    regionName := some "Virginia", city := some "Ashburn",
    zip := some "20149", lat := some 39, lon := some (-77),
    timezone := some "America/New_York", isp := some "Google LLC",
    org := some "Google Public DNS", asNum := some "AS15169 Google LLC",
    asname := some "GOOGLE", mobile := none, proxy := some false,
    hosting := some true, query := some "8.8.8.8" }

/-- Oracle where every lookup succeeds with `sampleRecord`. -/
def uOk : Upstream := fun _ => Except.ok sampleRecord

/-- Oracle where the lookup of 1.1.1.1 throws `boom` and every other
lookup succeeds with `sampleRecord`. -/
def uBoom : Upstream :=
  fun t => if t = "1.1.1.1" then Except.error "boom" else Except.ok sampleRecord

/-- A logical-failure payload whose `message` is present but empty. -/
def failRecord : ProviderRecord :=
  { status := "fail", message := some "", country := none,
    countryCode := none, region := none, regionName := none, city := none,
    zip := none, lat := none, lon := none, timezone := none, isp := none,
    org := none, asNum := none, asname := none, mobile := none,
    proxy := none, hosting := none, query := none }

/-- A 200 transport response carrying `failRecord`. -/
def failResp : HttpResponse := { status := 200, data := failRecord }

/-! ## Helper lemma -/

/-- `List.map` commutes with positional access. -/
theorem get?_map_eq {α β : Type} (f : α → β) :
    ∀ (l : List α) (i : Nat), (l.map f).get? i = (l.get? i).map f
  | [], i => by cases i <;> rfl
  | _ :: _, 0 => rfl
  | _ :: l, i + 1 => get?_map_eq f l i

end IpIntel

namespace IpIntel

/-- C1: the claim says `isValidIP` accepts every well-formed IPv4
dotted-quad and every standard-form IPv6 address including the `::`
zero-compression forms (its own examples: `::`, `1::2`, `::1`), and
rejects every string violating octet range, segment count, or
hex-digit constraints.  The code contradicts this: its fourth IPv6
alternative `(?:H{1,4}:){0,6}::...` demands a literal `::` after a
group's own trailing colon, so the bare `::` and every interior
compression such as `1::2` or `2001:db8::1` are rejected, while the
malformed triple-colon `1:::2` is accepted.  Only the plain-IPv4,
full 8-group, leading-`::`-with-final-group, and trailing-`::`
forms behave as claimed. -/
theorem C1_isValidIP_zero_compression_bug :
    isValidIP "8.8.8.8" = true ∧
    isValidIP "255.255.255.255" = true ∧
    isValidIP "256.1.1.1" = false ∧
    isValidIP "1.2.3" = false ∧
    isValidIP "2001:db8:85a3:0:0:8a2e:370:7334" = true ∧
    isValidIP "::1" = true ∧
    isValidIP "1::" = true ∧
    isValidIP "g::1" = false ∧
    isValidIP "::" = false ∧
    isValidIP "1::2" = false ∧
    isValidIP "2001:db8::1" = false ∧
    isValidIP "1:::2" = true := by
  decide

/-- C2: for bulk input of length 1-10, the results list has exactly the
input's length and the outcome at each position is computed from the
input IP at that same position.  (`Promise.all` over `ips.map` is
order-preserving by construction, so completion order cannot influence
positions; the embedding is the resolved value of that combinator.) -/
theorem C2_bulk_length_and_order (u : Upstream) (ips : List String) (i : Nat)
    (_h1 : 1 ≤ ips.length) (_h2 : ips.length ≤ 10) :
    (bulkHandler u ips).length = ips.length ∧
    (bulkHandler u ips).get? i = (ips.get? i).map (bulkOutcome u) :=
  ⟨List.length_map ips (bulkOutcome u), get?_map_eq (bulkOutcome u) ips i⟩

/-- Witness for C2 at a concrete bulk input of length 2. -/
theorem C2_witness :
    (1 ≤ (["notanip", "8.8.8.8"] : List String).length ∧
      (["notanip", "8.8.8.8"] : List String).length ≤ 10) ∧
    ((bulkHandler uOk ["notanip", "8.8.8.8"]).length
        = (["notanip", "8.8.8.8"] : List String).length ∧
      (bulkHandler uOk ["notanip", "8.8.8.8"]).get? 1
        = ((["notanip", "8.8.8.8"] : List String).get? 1).map (bulkOutcome uOk)) :=
  ⟨⟨by decide, by decide⟩,
    C2_bulk_length_and_order uOk ["notanip", "8.8.8.8"] 1 (by decide) (by decide)⟩

/-- C3: if the input IP at position `i` fails `isValidIP`, the bulk
outcome at position `i` is exactly `{ ip, error: "Invalid IP format" }`
with that input string, and the entry's outcome is the same under any
two upstream oracles — no `fetchIPData` invocation is made for it. -/
theorem C3_bulk_invalid_entry (u v : Upstream) (ips : List String) (i : Nat)
    (ip : String) (hip : ips.get? i = some ip)
    (hinv : isValidIP ip = false) :
    (bulkHandler u ips).get? i
      = some (LookupOutcome.err ip "Invalid IP format") ∧
    bulkOutcome u ip = bulkOutcome v ip := by
  constructor
  · rw [bulkHandler, get?_map_eq, hip]
    simp [bulkOutcome, hinv]
  · simp [bulkOutcome, hinv]

/-- Witness for C3 at the concrete invalid entry `"notanip"`. -/
theorem C3_witness :
    ((["notanip", "8.8.8.8"] : List String).get? 0 = some "notanip" ∧
      isValidIP "notanip" = false) ∧
    ((bulkHandler uOk ["notanip", "8.8.8.8"]).get? 0
        = some (LookupOutcome.err "notanip" "Invalid IP format") ∧
      bulkOutcome uOk "notanip" = bulkOutcome uBoom "notanip") :=
  ⟨⟨by decide, by decide⟩,
    C3_bulk_invalid_entry uOk uBoom ["notanip", "8.8.8.8"] 0 "notanip"
      (by decide) (by decide)⟩

/-- C4: one entry's upstream failure never fails the batch.  If the
upstream call for the valid IP `s` throws message `m`, the outcome for
`s` is exactly `{ ip: s, error: m }`; the results list keeps full
length; and every position holding a different input IP has the same
outcome as under an oracle that differs only at `s` — no cross-item
cancellation. -/
theorem C4_bulk_failure_isolation (u v : Upstream) (s m : String)
    (ips : List String) (i : Nat)
    (hagree : ∀ t, t ≠ s → u t = v t)
    (hu : u s = Except.error m) (hvalid : isValidIP s = true) :
    bulkOutcome u s = LookupOutcome.err s m ∧
    (bulkHandler u ips).length = ips.length ∧
    (ips.get? i ≠ some s →
      (bulkHandler u ips).get? i = (bulkHandler v ips).get? i) := by
  refine ⟨by simp [bulkOutcome, hvalid, hu],
    List.length_map ips (bulkOutcome u), ?_⟩
  intro hne
  rw [bulkHandler, bulkHandler, get?_map_eq, get?_map_eq]
  cases hget : ips.get? i with
  | none => rfl
  | some t =>
      have ht : t ≠ s := fun hts => hne (by rw [hget, hts])
      have hb : bulkOutcome u t = bulkOutcome v t := by
        unfold bulkOutcome
        rw [hagree t ht]
      simp [hb]

/-- Witness for C4: `uBoom` throws `boom` for 1.1.1.1, `uOk` differs
from it only there, and position 0 (holding 8.8.8.8) is unaffected. -/
theorem C4_witness :
    ((∀ t, t ≠ "1.1.1.1" → uBoom t = uOk t) ∧
      uBoom "1.1.1.1" = Except.error "boom" ∧
      isValidIP "1.1.1.1" = true) ∧
    (bulkOutcome uBoom "1.1.1.1" = LookupOutcome.err "1.1.1.1" "boom" ∧
      (bulkHandler uBoom ["8.8.8.8", "1.1.1.1"]).length
        = (["8.8.8.8", "1.1.1.1"] : List String).length ∧
      ((["8.8.8.8", "1.1.1.1"] : List String).get? 0 ≠ some "1.1.1.1" →
        (bulkHandler uBoom ["8.8.8.8", "1.1.1.1"]).get? 0
          = (bulkHandler uOk ["8.8.8.8", "1.1.1.1"]).get? 0)) :=
  ⟨⟨fun t ht => by simp [uBoom, uOk, ht], by simp [uBoom], by decide⟩,
    C4_bulk_failure_isolation uBoom uOk "1.1.1.1" "boom"
      ["8.8.8.8", "1.1.1.1"] 0 (fun t ht => by simp [uBoom, uOk, ht])
      (by simp [uBoom]) (by decide)⟩

end IpIntel

namespace IpIntel

/-- C5 counterexample: the claim says that on a logical failure the
thrown error carries the provider's message *when present*.  At a 200
response whose payload has `status = "fail"` and the present message
`""`, the code throws the generic `"Invalid IP address"` instead of the
present message, because `data.message || '...'` treats the empty
string as absent. -/
theorem C5_counterexample :
    failResp.data.message = some "" ∧
    respOk failResp = true ∧
    failResp.data.status = "fail" ∧
    fetchIPData failResp = Except.error "Invalid IP address" ∧
    "Invalid IP address" ≠ "" := by
  refine ⟨rfl, rfl, rfl, rfl, by decide⟩

/-- C5 (amended): `fetchIPData` throws iff the transport status is not
in the 2xx success range or the payload's `status` is `"fail"`; in the
latter case the error carries the provider's message when present and
non-empty, and the generic `"Invalid IP address"` when the message is
absent or empty; on success it returns the decoded record unchanged. -/
theorem C5_fetchIPData_characterization (resp : HttpResponse) :
    ((∃ e, fetchIPData resp = Except.error e) ↔
      (respOk resp = false ∨ resp.data.status = "fail")) ∧
    (∀ msg, respOk resp = true → resp.data.status = "fail" →
      resp.data.message = some msg → msg ≠ "" →
      fetchIPData resp = Except.error msg) ∧
    (respOk resp = true → resp.data.status = "fail" →
      (resp.data.message = none ∨ resp.data.message = some "") →
      fetchIPData resp = Except.error "Invalid IP address") ∧
    (respOk resp = true → resp.data.status ≠ "fail" →
      fetchIPData resp = Except.ok resp.data) := by
  refine ⟨⟨?_, ?_⟩, ?_, ?_, ?_⟩
  · rintro ⟨e, he⟩
    by_cases h1 : respOk resp = false
    · exact Or.inl h1
    · by_cases h2 : resp.data.status = "fail"
      · exact Or.inr h2
      · rw [fetchIPData, if_neg h1, if_neg h2] at he
        exact Except.noConfusion he
  · rintro (h1 | h2)
    · exact ⟨_, by rw [fetchIPData, if_pos h1]⟩
    · by_cases h1 : respOk resp = false
      · exact ⟨_, by rw [fetchIPData, if_pos h1]⟩
      · exact ⟨_, by rw [fetchIPData, if_neg h1, if_pos h2]⟩
  · intro msg h1 h2 hmsg hne
    have h1f : ¬(respOk resp = false) := by simp [h1]
    rw [fetchIPData, if_neg h1f, if_pos h2, hmsg]
    simp [jsOrString, hne]
  · intro h1 h2 hm
    have h1f : ¬(respOk resp = false) := by simp [h1]
    rw [fetchIPData, if_neg h1f, if_pos h2]
    -- in both cases `jsOrString` reduces to the generic message
    cases hm with
    | inl h => rw [h]; rfl
    | inr h => rw [h]; rfl
  · intro h1 h2
    have h1f : ¬(respOk resp = false) := by simp [h1]
    rw [fetchIPData, if_neg h1f, if_neg h2]

/-- Witness for C5 (amended), instantiated at `failResp`. -/
theorem C5_witness :
    ((∃ e, fetchIPData failResp = Except.error e) ↔
      (respOk failResp = false ∨ failResp.data.status = "fail")) ∧
    (∀ msg, respOk failResp = true → failResp.data.status = "fail" →
      failResp.data.message = some msg → msg ≠ "" →
      fetchIPData failResp = Except.error msg) ∧
    (respOk failResp = true → failResp.data.status = "fail" →
      (failResp.data.message = none ∨ failResp.data.message = some "") →
      fetchIPData failResp = Except.error "Invalid IP address") ∧
    (respOk failResp = true → failResp.data.status ≠ "fail" →
      fetchIPData failResp = Except.ok failResp.data) :=
  C5_fetchIPData_characterization failResp

/-- C6: every single-IP handler checks `isValidIP` first: on a failing
IP it throws the validation error `"Invalid IP address format"` and
produces no output.  The upstream oracle `u` (and the timezone
localizer `loc`) are universally quantified, so the result is the same
whatever the network would answer — `fetchIPData` is never consulted. -/
theorem C6_single_endpoints_validate_first (u : Upstream)
    (loc : Option String → String) (now ip : String)
    (hinv : isValidIP ip = false) :
    lookupHandler u now ip = Except.error "Invalid IP address format" ∧
    geolocateHandler u now ip = Except.error "Invalid IP address format" ∧
    timezoneHandler u loc now ip = Except.error "Invalid IP address format" ∧
    ispInfoHandler u now ip = Except.error "Invalid IP address format" := by
  refine ⟨?_, ?_, ?_, ?_⟩ <;>
    simp [lookupHandler, geolocateHandler, timezoneHandler, ispInfoHandler, hinv]

/-- Witness for C6 at the spec's own example input 256.1.1.1. -/
theorem C6_witness :
    isValidIP "256.1.1.1" = false ∧
    (lookupHandler uOk "t0" "256.1.1.1"
        = Except.error "Invalid IP address format" ∧
      geolocateHandler uOk "t0" "256.1.1.1"
        = Except.error "Invalid IP address format" ∧
      timezoneHandler uOk (fun _ => "lt") "t0" "256.1.1.1"
        = Except.error "Invalid IP address format" ∧
      ispInfoHandler uOk "t0" "256.1.1.1"
        = Except.error "Invalid IP address format") :=
  ⟨by decide,
    C6_single_endpoints_validate_first uOk (fun _ => "lt") "t0" "256.1.1.1"
      (by decide)⟩

/-- C7: a successful bulk entry is shaped exactly as
`{ ip, country, countryCode, city, isp, coordinates: { lat, lon } }`,
each field taken from the provider record, with `ip` the provider's
echoed `query` field (not necessarily the caller's input string). -/
theorem C7_bulk_success_shape (u : Upstream) (ip : String)
    (d : ProviderRecord) (hvalid : isValidIP ip = true)
    (hu : u ip = Except.ok d) :
    bulkOutcome u ip =
      LookupOutcome.ok
        { ip := d.query, country := d.country, countryCode := d.countryCode,
          city := d.city, isp := d.isp,
          coordinates := { lat := d.lat, lon := d.lon } } := by
  simp [bulkOutcome, hvalid, hu]

/-- Witness for C7 at 8.8.8.8 under `uOk`. -/
theorem C7_witness :
    (isValidIP "8.8.8.8" = true ∧ uOk "8.8.8.8" = Except.ok sampleRecord) ∧
    bulkOutcome uOk "8.8.8.8" =
      LookupOutcome.ok
        { ip := sampleRecord.query, country := sampleRecord.country,
          countryCode := sampleRecord.countryCode, city := sampleRecord.city,
          isp := sampleRecord.isp,
          coordinates := { lat := sampleRecord.lat, lon := sampleRecord.lon } } :=
  ⟨⟨by decide, rfl⟩, C7_bulk_success_shape uOk "8.8.8.8" sampleRecord (by decide) rfl⟩

/-- C8: in the isp-info output, each of the `mobile`/`proxy`/`hosting`
flags equals the provider's boolean when the field is present and is
`false` when the field is absent (`data.<flag> || false`). -/
theorem C8_isp_flags_default_false (u : Upstream) (now ip : String)
    (d : ProviderRecord) (hvalid : isValidIP ip = true)
    (hu : u ip = Except.ok d) :
    ∃ o, ispInfoHandler u now ip = Except.ok o ∧
      (∀ b, d.mobile = some b → o.flags.mobile = b) ∧
      (d.mobile = none → o.flags.mobile = false) ∧
      (∀ b, d.proxy = some b → o.flags.proxy = b) ∧
      (d.proxy = none → o.flags.proxy = false) ∧
      (∀ b, d.hosting = some b → o.flags.hosting = b) ∧
      (d.hosting = none → o.flags.hosting = false) := by
  refine ⟨{ ip := d.query, isp := d.isp, organization := d.org,
            asn := d.asNum, asName := d.asname,
            flags := { mobile := jsOrFalse d.mobile,
                       proxy := jsOrFalse d.proxy,
                       hosting := jsOrFalse d.hosting },
            fetchedAt := now }, ?_, ?_, ?_, ?_, ?_, ?_, ?_⟩
  · simp [ispInfoHandler, hvalid, hu]
  · intro b hb; simp [jsOrFalse, hb]
  · intro hb; simp [jsOrFalse, hb]
  · intro b hb; simp [jsOrFalse, hb]
  · intro hb; simp [jsOrFalse, hb]
  · intro b hb; simp [jsOrFalse, hb]
  · intro hb; simp [jsOrFalse, hb]

/-- Witness for C8 under `sampleRecord`, which has `mobile` absent and
`proxy`/`hosting` present. -/
theorem C8_witness :
    (isValidIP "8.8.8.8" = true ∧ uOk "8.8.8.8" = Except.ok sampleRecord) ∧
    (∃ o, ispInfoHandler uOk "t0" "8.8.8.8" = Except.ok o ∧
      (∀ b, sampleRecord.mobile = some b → o.flags.mobile = b) ∧
      (sampleRecord.mobile = none → o.flags.mobile = false) ∧
      (∀ b, sampleRecord.proxy = some b → o.flags.proxy = b) ∧
      (sampleRecord.proxy = none → o.flags.proxy = false) ∧
      (∀ b, sampleRecord.hosting = some b → o.flags.hosting = b) ∧
      (sampleRecord.hosting = none → o.flags.hosting = false)) :=
  ⟨⟨by decide, rfl⟩,
    C8_isp_flags_default_false uOk "t0" "8.8.8.8" sampleRecord (by decide) rfl⟩

/-- C9: the overview entrypoint is registered at price amount 0, and
whenever the unguarded `fetchIPData('8.8.8.8')` succeeds the output
carries a `sampleLookup` built from that record's `query`, `country`,
`city` and `isp` fields together with the non-empty endpoints catalog. -/
theorem C9_overview_free_sample (u : Upstream) (now : String)
    (d : ProviderRecord) (hu : u "8.8.8.8" = Except.ok d) :
    priceOf "overview" = some 0 ∧
    ∃ o, overviewHandler u now = Except.ok o ∧
      o.sampleLookup =
        { ip := d.query, country := d.country, city := d.city, isp := d.isp } ∧
      o.endpoints ≠ [] := by
  refine ⟨by decide,
    { service := "IP Intelligence Agent",
      description := "Real-time IP geolocation, ISP info, and timezone data",
      dataSource := "ip-api.com (live)",
      sampleLookup := { ip := d.query, country := d.country, city := d.city,
                        isp := d.isp },
      endpoints := overviewEndpoints, fetchedAt := now },
    by simp [overviewHandler, hu], rfl, by simp [overviewEndpoints]⟩

/-- Witness for C9 under `uOk`. -/
theorem C9_witness :
    uOk "8.8.8.8" = Except.ok sampleRecord ∧
    (priceOf "overview" = some 0 ∧
      ∃ o, overviewHandler uOk "t0" = Except.ok o ∧
        o.sampleLookup =
          { ip := sampleRecord.query, country := sampleRecord.country,
            city := sampleRecord.city, isp := sampleRecord.isp } ∧
        o.endpoints ≠ []) :=
  ⟨rfl, C9_overview_free_sample uOk "t0" sampleRecord rfl⟩

/-- C10: every error outcome of the bulk handler (validation failure or
upstream failure) carries the caller's input string at that position as
its `ip` field; only success outcomes substitute the provider's echoed
`query` value. -/
theorem C10_bulk_error_ip_is_input (u : Upstream) (ips : List String)
    (i : Nat) (s m : String)
    (h : (bulkHandler u ips).get? i = some (LookupOutcome.err s m)) :
    ips.get? i = some s := by
  rw [bulkHandler, get?_map_eq] at h
  cases hget : ips.get? i with
  | none => rw [hget] at h; exact Option.noConfusion h
  | some t =>
      rw [hget] at h
      simp only [Option.map_some'] at h
      have ht : bulkOutcome u t = LookupOutcome.err s m :=
        Option.some.inj h
      unfold bulkOutcome at ht
      by_cases hv : isValidIP t = false
      · rw [if_pos hv] at ht
        rw [(LookupOutcome.err.inj ht).1]
      · rw [if_neg hv] at ht
        cases hu : u t with
        | error m2 =>
            rw [hu] at ht
            rw [(LookupOutcome.err.inj ht).1]
        | ok d =>
            rw [hu] at ht
            exact LookupOutcome.noConfusion ht

/-- Witness for C10 at an upstream-failure outcome. -/
theorem C10_witness :
    (bulkHandler uBoom ["1.1.1.1"]).get? 0
      = some (LookupOutcome.err "1.1.1.1" "boom") ∧
    (["1.1.1.1"] : List String).get? 0 = some "1.1.1.1" :=
  ⟨by decide,
    C10_bulk_error_ip_is_input uBoom ["1.1.1.1"] 0 "1.1.1.1" "boom" (by decide)⟩

end IpIntel
